import Mathlib

/-
Verification of the Trackingplan SSGTM tag batching engine.

This file shallowly embeds the batching, deduplication and flush-decision
engine of the tag template (src/template.js, with the sendBatch of the
earlier revision src/template.tpl where the two revisions differ) and
proves properties about queue reconciliation, the QueueStartTime
invariant, flush triggers, sampling, deduplication eviction and the
frame effects of the empty / sampled-out paths.

Modelling conventions:
- the host's persisted key-value store (templateDataStorage) is a record
  with one Option-typed field per key used by the code; getItemCopy with
  a JS falsy default is Option.getD;
- host inputs (getTimestampMillis, generateRandom, getContainerVersion,
  the session id) are explicit parameters of each operation;
- every operation returns, besides the new state, the chronological list
  of store read/write events it performed and the list of HTTP batch
  payloads it sent, so that frame and once-only properties are statements
  about those traces;
- the shared mutable OPTIONS.CUSTOM_TAGS object (which createRawTrack
  stores by reference into every record and sendBatch mutates in place)
  is modelled as a single mutable cell customTags in the state: a record
  field tags is a reference to that cell, so the tags a record carries at
  any moment are the cell's current contents;
- JS numbers holding epoch milliseconds are Int (all values involved are
  exact integers far below 2^53, so Int addition/subtraction/comparison
  coincides with the JS float arithmetic on them).
-/

set_option maxRecDepth 100000

namespace Trackingplan

/-- Canonical record built by createRawTrack. The tags field of the JS
object is a reference to the shared OPTIONS.CUSTOM_TAGS cell and is
therefore modelled in TagState.customTags, not here. -/
structure RawTrack where
  provider : String
  endpoint : String
  method : String
  post_payload : Option String
  href : Option String
  ts : Int
deriving DecidableEq, Repr

/-- Container metadata returned by getContainerVersion; only the version
field is read by the code under verification. -/
structure ContainerInfo where
  version : String
deriving DecidableEq, Repr

/-- Configuration options resolved once per invocation by getOptions. -/
structure Options where
  MAX_BATCH_SIZE : Nat
  MAX_BATCH_AGE_MS : Int
  TP_ID : String
  SAMPLING_RATE : Nat
  ENVIRONMENT : String
  USE_SESSIONS : Bool
  CAPTURE_GTM : Bool
deriving DecidableEq, Repr

/-- Template version constant. -/
def VERSION : String := "2"

/-- Capacity bound of the seen-hash set. -/
def MAX_HASH_SIZE : Nat := 100

/-- Persisted store contents, one field per templateDataStorage key the
code uses; none models an absent key. -/
structure Store where
  rawTrackQueue : Option (List RawTrack)
  queueStartTime : Option Int
  seenHashes : Option (List String)
deriving DecidableEq, Repr

/-- Per-invocation mutable state: the persisted store plus the shared
OPTIONS.CUSTOM_TAGS object cell. -/
structure TagState where
  store : Store
  customTags : List (String × String)
deriving DecidableEq, Repr

/-- Keys of the persisted store. -/
inductive StoreKey
  | rawTrackQueue
  | queueStartTime
  | seenHashes
deriving DecidableEq, Repr

/-- Observable store access events, in chronological order. -/
inductive StoreEv
  | get (k : StoreKey)
  | setQueue (q : List RawTrack)
  | setStart (t : Int)
  | setHashes (hs : List String)
deriving DecidableEq, Repr

/-- Wire payload of one batch send (the JSON body fields that the code
fills in; common.context carries the container info in template.js and
is empty in template.tpl). -/
structure BatchPayload where
  requests : List RawTrack
  ssgtm_container_version : Option ContainerInfo
  tp_id : String
  source_alias : String
  environment : String
  sdk : String
  sdk_version : String
  sampling_rate : Nat
  tags : List (String × String)
  session_id : Option String
deriving DecidableEq, Repr

/-- Transport outcome of the asynchronous sendHttpRequest call. -/
inductive SendOutcome
  | success (statusCode : Nat)
  | failure
deriving DecidableEq, Repr

/-- Result of one operation: the final state, the chronological store
access trace, and the batch payloads handed to the transport. -/
structure StepResult where
  state : TagState
  events : List StoreEv
  sends : List BatchPayload
deriving DecidableEq, Repr

/-- Sequencing of two effectful steps, concatenating their traces. -/
def StepResult.andThen (r : StepResult) (f : TagState → StepResult) : StepResult :=
  let r2 := f r.state
  { state := r2.state, events := r.events ++ r2.events, sends := r.sends ++ r2.sends }

/-- JS Array.prototype.slice(start) with a single (possibly negative)
argument: a negative start counts from the end, and the start index is
clamped to the array bounds. -/
def jsSliceFrom (start : Int) (l : List α) : List α :=
  let k : Int := if start < 0 then max ((l.length : Int) + start) 0 else min start (l.length : Int)
  l.drop k.toNat

/-- JS Array.prototype.indexOf: index of the first occurrence, -1 when
absent. -/
def jsIndexOf (x : String) : List String → Int
  | [] => -1
  | y :: ys =>
      if y = x then 0
      else
        let r := jsIndexOf x ys
        if r = -1 then -1 else r + 1

/-- JS object property assignment on an object modelled as an ordered
association list: an existing key keeps its position and gets the new
value, a new key is appended at the end. -/
def jsObjSet : List (String × String) → String → String → List (String × String)
  | [], k, v => [(k, v)]
  | (k0, v0) :: rest, k, v =>
      if k0 = k then (k, v) :: rest else (k0, v0) :: jsObjSet rest k v

/-- Function createRawTrack of template.js: builds the canonical record
from the request data, the page location with referer fallback, and the
current timestamp. The tags field of the JS result is a reference to the
shared OPTIONS.CUSTOM_TAGS cell (see TagState.customTags). -/
def createRawTrack (provider : String) (requestUrl : String) (requestMethod : Option String)
    (requestBody : Option String) (pageLocation : Option String) (refererHeader : Option String)
    (now : Int) : RawTrack :=
  { provider := provider
    endpoint := requestUrl
    method := requestMethod.getD "POST"
    post_payload := requestBody
    href := pageLocation.orElse fun _ => refererHeader
    ts := now }

/-- Function checkAndAddHash of template.js: membership test on the
persisted seen-hash list, with append and size-limit trimming for a
fresh hash. Returns whether the hash already existed. -/
def checkAndAddHash (hash : String) (s : TagState) : Bool × StepResult :=
  if hash = "" then (false, { state := s, events := [], sends := [] })
  else
    let seenHashes := s.store.seenHashes.getD []
    let exists0 := jsIndexOf hash seenHashes ≠ -1
    if exists0 then
      (true, { state := s, events := [StoreEv.get StoreKey.seenHashes], sends := [] })
    else
      let seen1 := seenHashes ++ [hash]
      let seen2 :=
        if seen1.length > MAX_HASH_SIZE then
          let toRemove : Int :=
            max ((seen1.length : Int) - (MAX_HASH_SIZE : Int))
              (-1 * ((MAX_HASH_SIZE / 2 : Nat) : Int))
          jsSliceFrom toRemove seen1
        else seen1
      (false,
        { state := { s with store := { s.store with seenHashes := some seen2 } }
          events := [StoreEv.get StoreKey.seenHashes, StoreEv.setHashes seen2]
          sends := [] })

/-- Queue reconciliation block of sendBatch (identical in both template
revisions): re-read the current persisted queue; when it is longer than
what was sent, drop exactly the sent prefix and keep the tail with the
start time untouched, otherwise clear the queue and reset the start
time to 0. -/
def reconcileQueue (sentQueueLength : Nat) (st : Store) : Store × List StoreEv :=
  let currentQueue := st.rawTrackQueue.getD []
  if currentQueue.length > sentQueueLength then
    let updatedQueue := currentQueue.drop sentQueueLength
    ({ st with rawTrackQueue := some updatedQueue },
      [StoreEv.get StoreKey.rawTrackQueue, StoreEv.setQueue updatedQueue])
  else
    ({ st with rawTrackQueue := some [], queueStartTime := some 0 },
      [StoreEv.get StoreKey.rawTrackQueue, StoreEv.setQueue [], StoreEv.setStart 0])

/-- Function sendBatch of template.js (the newer revision): resolves the
queue to send, returns immediately when it is empty, mutates the shared
custom-tags cell in place with the container version, builds the
payload, reconciles the persisted queue BEFORE issuing the HTTP request,
then fires the request; the then/catch handlers only log, so the
resulting state does not depend on the transport outcome. -/
def sendBatchJs (opts : Options) (ci : Option ContainerInfo) (sid : String)
    (outcome : SendOutcome) (queueToSend : Option (List RawTrack)) (s : TagState) : StepResult :=
  let queueAndReads : List RawTrack × List StoreEv :=
    match queueToSend with
    | some q => (q, [])
    | none => (s.store.rawTrackQueue.getD [], [StoreEv.get StoreKey.rawTrackQueue])
  let queue := queueAndReads.1
  let readEvs := queueAndReads.2
  if queue.isEmpty then
    { state := s, events := readEvs, sends := [] }
  else
    let sentQueueLength := queue.length
    let tags :=
      match ci with
      | some c => jsObjSet s.customTags "gtm_container_version" c.version
      | none => s.customTags
    let payload : BatchPayload :=
      { requests := queue
        ssgtm_container_version := ci
        tp_id := opts.TP_ID
        source_alias := "SSGTM"
        environment := opts.ENVIRONMENT
        sdk := "ssgtm"
        sdk_version := VERSION
        sampling_rate := opts.SAMPLING_RATE
        tags := tags
        session_id := if opts.USE_SESSIONS then some sid else none }
    let rq := reconcileQueue sentQueueLength s.store
    { state := { store := rq.1, customTags := tags }
      events := readEvs ++ rq.2
      sends := [payload] }

/-- Tags object built by template.tpl's sendBatch: a FRESH object (the
shared custom-tags cell is not touched) holding the container fields
under an ssgtm_container_version prefix plus the gtm_container_version
tag. -/
def tplContainerTags : Option ContainerInfo → List (String × String)
  | none => []
  | some c => [("ssgtm_container_version.version", c.version), ("gtm_container_version", c.version)]

/-- Function sendBatch of template.tpl (the earlier revision): builds
the payload and issues the HTTP request first; the queue reconciliation
runs in the then-handler only after a response arrives, and the
catch-handler leaves the queue as is for a later retry. -/
def sendBatchTpl (opts : Options) (ci : Option ContainerInfo)
    (outcome : SendOutcome) (queueToSend : Option (List RawTrack)) (s : TagState) : StepResult :=
  let queueAndReads : List RawTrack × List StoreEv :=
    match queueToSend with
    | some q => (q, [])
    | none => (s.store.rawTrackQueue.getD [], [StoreEv.get StoreKey.rawTrackQueue])
  let queue := queueAndReads.1
  let readEvs := queueAndReads.2
  if queue.isEmpty then
    { state := s, events := readEvs, sends := [] }
  else
    let payload : BatchPayload :=
      { requests := queue
        ssgtm_container_version := none
        tp_id := opts.TP_ID
        source_alias := "SSGTM"
        environment := opts.ENVIRONMENT
        sdk := "ssgtm"
        sdk_version := VERSION
        sampling_rate := opts.SAMPLING_RATE
        tags := tplContainerTags ci
        session_id := none }
    match outcome with
    | SendOutcome.success _ =>
        let rq := reconcileQueue queue.length s.store
        { state := { s with store := rq.1 }
          events := readEvs ++ rq.2
          sends := [payload] }
    | SendOutcome.failure =>
        { state := s, events := readEvs, sends := [payload] }

/-- Function addToQueue of template.js: sampling gate, fresh read of the
persisted queue and start time, start-time initialization on an empty
queue, append, immediate persist, then the size/age flush decision with
a snapshot handed to sendBatch. The draw parameter is the fresh
generateRandom(1, SAMPLING_RATE) result of this call (only consumed when
SAMPLING_RATE exceeds 1); now1 and now2 are the two getTimestampMillis
reads. -/
def addToQueue (opts : Options) (ci : Option ContainerInfo) (sid : String)
    (rawTrack : RawTrack) (draw : Nat) (now1 now2 : Int) (s : TagState) : StepResult :=
  if opts.SAMPLING_RATE > 1 ∧ draw > 1 then
    { state := s, events := [], sends := [] }
  else
    let queue := s.store.rawTrackQueue.getD []
    let storedStart := s.store.queueStartTime.getD 0
    let queueStartTime := if queue.isEmpty then now1 else storedStart
    let startEvs := if queue.isEmpty then [StoreEv.setStart now1] else []
    let queue2 := queue ++ [rawTrack]
    let s1 : TagState :=
      { s with store :=
          { s.store with
            rawTrackQueue := some queue2
            queueStartTime := if queue.isEmpty then some now1 else s.store.queueStartTime } }
    let baseEvs :=
      [StoreEv.get StoreKey.rawTrackQueue, StoreEv.get StoreKey.queueStartTime]
        ++ startEvs ++ [StoreEv.setQueue queue2]
    let timeElapsed := now2 - queueStartTime
    let sendDueToSize := queue2.length ≥ opts.MAX_BATCH_SIZE
    let sendDueToTime := timeElapsed ≥ opts.MAX_BATCH_AGE_MS ∧ queue2.length > 0
    if (sendDueToSize ∨ sendDueToTime) ∧ queue2.length > 0 then
      let r2 := sendBatchJs opts ci sid (SendOutcome.success 200) (some queue2) s1
      { state := r2.state, events := baseEvs ++ r2.events, sends := r2.sends }
    else
      { state := s1, events := baseEvs, sends := [] }

/-- Function checkStaleQueue of template.js: reads the persisted queue
and start time, returns on an empty queue or unset start time, and
drains a snapshot of the queue through sendBatch when its age reached
MAX_BATCH_AGE_MS. -/
def checkStaleQueue (opts : Options) (ci : Option ContainerInfo) (sid : String)
    (now : Int) (s : TagState) : StepResult :=
  let queue := s.store.rawTrackQueue.getD []
  let queueStartTime := s.store.queueStartTime.getD 0
  let readEvs := [StoreEv.get StoreKey.rawTrackQueue, StoreEv.get StoreKey.queueStartTime]
  if queue.isEmpty ∨ queueStartTime = 0 then
    { state := s, events := readEvs, sends := [] }
  else
    let timeElapsed := now - queueStartTime
    if timeElapsed ≥ opts.MAX_BATCH_AGE_MS then
      let r2 := sendBatchJs opts ci sid (SendOutcome.success 200) (some queue) s
      { state := r2.state, events := readEvs ++ r2.events, sends := r2.sends }
    else
      { state := s, events := readEvs, sends := [] }

/-- Function processGTMEvent of template.js: duplicate detection on the
upstream request-start-time token (when present) followed by record
creation and enqueue. The token parameter is the value of
x-sst-system_properties.request_start_time_ms when available. -/
def processGTMEvent (opts : Options) (ci : Option ContainerInfo) (sid : String)
    (token : Option String) (rawTrack : RawTrack) (draw : Nat) (now1 now2 : Int)
    (s : TagState) : StepResult :=
  match token with
  | some tok =>
      let dres := checkAndAddHash tok s
      if dres.1 then dres.2
      else dres.2.andThen (addToQueue opts ci sid rawTrack draw now1 now2)
  | none => addToQueue opts ci sid rawTrack draw now1 now2 s

/-- Control-flow phases of the initialize function, in execution order. -/
inductive InitStep
  | processGTM
  | setupListener
  | checkStale
  | gtmOnSuccess
deriving DecidableEq, Repr

/-- Statement order of initialize in template.js: the GTM event (when
captureGTM is enabled) is processed first, then the message listener is
registered, then the stale-queue check runs, then gtmOnSuccess. -/
def initializeStepsJs (captureGTM : Bool) : List InitStep :=
  (if captureGTM then [InitStep.processGTM] else [])
    ++ [InitStep.setupListener, InitStep.checkStale, InitStep.gtmOnSuccess]

/-- Statement order of initialize in template.tpl: identical, with the
GTM event processed unconditionally. -/
def initializeStepsTpl : List InitStep :=
  [InitStep.processGTM, InitStep.setupListener, InitStep.checkStale, InitStep.gtmOnSuccess]

/-- State semantics of initialize in template.js: GTM event processing
(when enabled) followed by the stale-queue check; listener registration
and gtmOnSuccess do not touch the store. -/
def initializeJs (opts : Options) (ci : Option ContainerInfo) (sid : String)
    (token : Option String) (gtmTrack : RawTrack) (draw : Nat) (now1 now2 now3 : Int)
    (s : TagState) : StepResult :=
  let r1 :=
    if opts.CAPTURE_GTM then processGTMEvent opts ci sid token gtmTrack draw now1 now2 s
    else { state := s, events := [], sends := [] }
  r1.andThen (checkStaleQueue opts ci sid now3)

/-- Operations of the sequential append/drain history used for the
QueueStartTime invariant. -/
inductive QOp
  | append (track : RawTrack) (draw : Nat) (now1 now2 : Int)
  | stale (now : Int)
deriving DecidableEq, Repr

/-- One operation of a history applied to the state. -/
def applyOp (opts : Options) (ci : Option ContainerInfo) (sid : String) :
    QOp → TagState → StepResult
  | QOp.append t d n1 n2, s => addToQueue opts ci sid t d n1 n2 s
  | QOp.stale n, s => checkStaleQueue opts ci sid n s

/-- Sequential execution of a history of operations. -/
def runOps (opts : Options) (ci : Option ContainerInfo) (sid : String) :
    List QOp → TagState → TagState
  | [], s => s
  | op :: ops, s => runOps opts ci sid ops (applyOp opts ci sid op s).state

/-- Timestamps delivered by getTimestampMillis are positive. -/
def QOp.posTime : QOp → Prop
  | QOp.append _ _ n1 _ => 0 < n1
  | QOp.stale _ => True

/-- QueueStartTime invariant: the persisted start time reads as 0
exactly when the persisted queue reads as empty. -/
def qinv (s : TagState) : Prop :=
  s.store.queueStartTime.getD 0 = 0 ↔ s.store.rawTrackQueue.getD [] = []

instance (s : TagState) : Decidable (qinv s) := by
  unfold qinv; infer_instance

/-- Start-time values written by a trace of store events. -/
def startWrites (evs : List StoreEv) : List Int :=
  evs.filterMap fun e =>
    match e with
    | StoreEv.setStart t => some t
    | _ => none

/-- Initial state: no persisted keys, configured custom tags. -/
def initState (tags0 : List (String × String)) : TagState :=
  { store := { rawTrackQueue := none, queueStartTime := none, seenHashes := none }
    customTags := tags0 }

/-- Sample record used by witnesses. -/
def t1 : RawTrack :=
  { provider := "ssgtm_event", endpoint := "/g/collect", method := "POST"
    post_payload := none, href := none, ts := 1 }

/-- Second sample record used by witnesses. -/
def t2 : RawTrack :=
  { provider := "ssgtm_message", endpoint := "https://example.com/collect", method := "POST"
    post_payload := some "x", href := none, ts := 2 }

/-- Sample configuration used by witnesses. -/
def opts1 : Options :=
  { MAX_BATCH_SIZE := 20, MAX_BATCH_AGE_MS := 5000, TP_ID := "TP1", SAMPLING_RATE := 1
    ENVIRONMENT := "PRODUCTION", USE_SESSIONS := false, CAPTURE_GTM := true }

/-- Sample state holding a one-record queue started at time 5. -/
def storeOne : TagState :=
  { store := { rawTrackQueue := some [t1], queueStartTime := some 5, seenHashes := none }
    customTags := [] }

/-- Full seen-hash set holding MAX_HASH_SIZE distinct tokens. -/
def hs100 : List String := (List.range 100).map fun n => Nat.repr n

/-- Sample state whose seen-hash set is at capacity. -/
def stateHashes : TagState :=
  { store := { rawTrackQueue := none, queueStartTime := none, seenHashes := some hs100 }
    customTags := [] }

/-- C2: for a snapshot that is a proper prefix of the current persisted
queue (the tail being the records appended after the snapshot), the
reconciliation keeps exactly that tail in its original order and leaves
QueueStartTime untouched; when the current queue is not longer than the
snapshot, it clears the queue and resets QueueStartTime to 0. -/
theorem reconcile_prefix_drop :
    (∀ (snap appended : List RawTrack) (st : Store),
        st.rawTrackQueue.getD [] = snap ++ appended →
        appended ≠ [] →
        (reconcileQueue snap.length st).1.rawTrackQueue = some appended ∧
          (reconcileQueue snap.length st).1.queueStartTime = st.queueStartTime) ∧
    (∀ (S : Nat) (st : Store),
        (st.rawTrackQueue.getD []).length ≤ S →
        (reconcileQueue S st).1.rawTrackQueue = some [] ∧
          (reconcileQueue S st).1.queueStartTime = some 0) := by
  constructor
  · intro snap appended st hq hne
    have hlen : (st.rawTrackQueue.getD []).length > snap.length := by
      rw [hq, List.length_append]
      have := List.length_pos.mpr hne
      omega
    simp only [reconcileQueue, if_pos hlen]
    refine ⟨?_, trivial⟩
    rw [hq, List.drop_left]
  · intro S st hle
    have hnot : ¬ (st.rawTrackQueue.getD []).length > S := by omega
    simp only [reconcileQueue, if_neg hnot]
    exact ⟨trivial, trivial⟩

/-- Witness for reconcile_prefix_drop at a concrete two-record queue
whose first record was snapshotted, and at a concrete cleared queue. -/
theorem reconcile_prefix_drop_witness :
    ((reconcileQueue 1
        { rawTrackQueue := some [t1, t2], queueStartTime := some 7, seenHashes := none }).1.rawTrackQueue
        = some [t2] ∧
      (reconcileQueue 1
        { rawTrackQueue := some [t1, t2], queueStartTime := some 7, seenHashes := none }).1.queueStartTime
        = some 7) ∧
    ((reconcileQueue 2
        { rawTrackQueue := some [t1], queueStartTime := some 7, seenHashes := none }).1.rawTrackQueue
        = some [] ∧
      (reconcileQueue 2
        { rawTrackQueue := some [t1], queueStartTime := some 7, seenHashes := none }).1.queueStartTime
        = some 0) := by
  constructor
  · have h := reconcile_prefix_drop.1 [t1] [t2]
      { rawTrackQueue := some [t1, t2], queueStartTime := some 7, seenHashes := none }
      (by decide) (by decide)
    exact h
  · exact reconcile_prefix_drop.2 2
      { rawTrackQueue := some [t1], queueStartTime := some 7, seenHashes := none } (by decide)

/-- C8: sendBatch called with an empty snapshot, or with no snapshot
while the persisted queue is empty, performs no HTTP send and writes no
persisted store key: queue, QueueStartTime and seen-hash set are all
unchanged (in the no-snapshot case the only store access is the single
read of the queue key). -/
theorem send_batch_empty_frame :
    ∀ (opts : Options) (ci : Option ContainerInfo) (sid : String) (outcome : SendOutcome)
      (s : TagState),
      sendBatchJs opts ci sid outcome (some []) s = { state := s, events := [], sends := [] } ∧
      (s.store.rawTrackQueue.getD [] = [] →
        sendBatchJs opts ci sid outcome none s =
          { state := s, events := [StoreEv.get StoreKey.rawTrackQueue], sends := [] }) := by
  intro opts ci sid outcome s
  constructor
  · simp [sendBatchJs]
  · intro h
    simp [sendBatchJs, h]

/-- Witness for send_batch_empty_frame at a concrete empty state. -/
theorem send_batch_empty_frame_witness :
    sendBatchJs opts1 none "" SendOutcome.failure (some []) (initState []) =
        { state := initState [], events := [], sends := [] } ∧
      sendBatchJs opts1 none "" SendOutcome.failure none (initState []) =
        { state := initState []
          events := [StoreEv.get StoreKey.rawTrackQueue], sends := [] } :=
  ⟨(send_batch_empty_frame opts1 none "" SendOutcome.failure (initState [])).1,
    (send_batch_empty_frame opts1 none "" SendOutcome.failure (initState [])).2 (by decide)⟩

/-- C9: a record rejected by the sampling draw leaves addToQueue with no
store access at all (no read, no write), the state exactly as before,
and no send. -/
theorem sampled_out_frame :
    ∀ (opts : Options) (ci : Option ContainerInfo) (sid : String) (t : RawTrack) (d : Nat)
      (n1 n2 : Int) (s : TagState),
      opts.SAMPLING_RATE > 1 → d > 1 →
      addToQueue opts ci sid t d n1 n2 s = { state := s, events := [], sends := [] } := by
  intro opts ci sid t d n1 n2 s h1 h2
  simp [addToQueue, h1, h2]

/-- Witness for sampled_out_frame at sampling rate 10 and draw 5. -/
theorem sampled_out_frame_witness :
    addToQueue { opts1 with SAMPLING_RATE := 10 } none "" t1 5 10 11 (initState []) =
      { state := initState [], events := [], sends := [] } :=
  sampled_out_frame { opts1 with SAMPLING_RATE := 10 } none "" t1 5 10 11 (initState [])
    (by decide) (by decide)

/-- C1 counterexample: in template.js the queue is reconciled before the
HTTP request is issued, so after a sendBatch whose transport FAILS the
persisted queue no longer contains the unsent record; at this concrete
one-record queue the post-state queue is empty and the start time reset,
contradicting the claim that failed sends leave the queue for retry. -/
theorem js_send_failure_loses_queue :
    (sendBatchJs opts1 none "" SendOutcome.failure (some [t1]) storeOne).state.store.rawTrackQueue
        = some [] ∧
      (sendBatchJs opts1 none "" SendOutcome.failure (some [t1])
          storeOne).state.store.queueStartTime = some 0 ∧
      storeOne.store.rawTrackQueue = some [t1] := by
  decide

/-- C1 amended: template.tpl's sendBatch reconciles only in the success
handler, so on transport failure the whole state is unchanged (the queue
is left for a later retry) and exactly one send is attempted with no
retry; template.js's sendBatch reconciles before sending, so its result
is independent of the transport outcome and it issues at most one send
per call. -/
theorem send_failure_reconciliation :
    (∀ (opts : Options) (ci : Option ContainerInfo) (q : List RawTrack) (s : TagState),
        q ≠ [] →
        (sendBatchTpl opts ci SendOutcome.failure (some q) s).state = s ∧
          (sendBatchTpl opts ci SendOutcome.failure (some q) s).sends.length = 1) ∧
    (∀ (opts : Options) (ci : Option ContainerInfo) (sid : String) (out1 out2 : SendOutcome)
        (qts : Option (List RawTrack)) (s : TagState),
        sendBatchJs opts ci sid out1 qts s = sendBatchJs opts ci sid out2 qts s ∧
          (sendBatchJs opts ci sid out1 qts s).sends.length ≤ 1) := by
  constructor
  · intro opts ci q s hq
    have hemp : q.isEmpty = false := by
      cases q with
      | nil => exact absurd rfl hq
      | cons a l => rfl
    simp [sendBatchTpl, hemp]
  · intro opts ci sid out1 out2 qts s
    refine ⟨rfl, ?_⟩
    simp only [sendBatchJs]
    split
    · simp
    · simp

/-- Witness for send_failure_reconciliation at a concrete one-record
queue and failed transport. -/
theorem send_failure_reconciliation_witness :
    ((sendBatchTpl opts1 none SendOutcome.failure (some [t1]) storeOne).state = storeOne ∧
      (sendBatchTpl opts1 none SendOutcome.failure (some [t1]) storeOne).sends.length = 1) ∧
    sendBatchJs opts1 none "" SendOutcome.failure (some [t1]) storeOne =
      sendBatchJs opts1 none "" (SendOutcome.success 200) (some [t1]) storeOne :=
  ⟨send_failure_reconciliation.1 opts1 none [t1] storeOne (by decide),
    (send_failure_reconciliation.2 opts1 none "" SendOutcome.failure (SendOutcome.success 200)
      (some [t1]) storeOne).1⟩

/-- C4 counterexample: with the seen-hash set at its capacity of 100 and
a fresh token pushed over capacity, the code keeps 100 entries — it
evicts exactly the single oldest entry, not the floor(100/2) = 50 oldest
the claim requires (half eviction would leave 51 entries). -/
theorem hash_eviction_counterexample :
    (checkAndAddHash "x" stateHashes).2.state.store.seenHashes = some (hs100.drop 1 ++ ["x"]) ∧
      (hs100.drop 1 ++ ["x"]).length = MAX_HASH_SIZE ∧
      hs100.length = MAX_HASH_SIZE ∧
      MAX_HASH_SIZE / 2 = 50 ∧
      hs100.drop 1 ++ ["x"] ≠ hs100.drop 50 ++ ["x"] := by
  decide

/-- C4 amended: when a fresh token is added to a seen-hash set already
at capacity MAX_HASH_SIZE, the code evicts exactly the single oldest
entry (the overflow amount, length − MAX_HASH_SIZE = 1), keeping the
most recent MAX_HASH_SIZE tokens; the −floor(MAX_HASH_SIZE/2) operand of
the max in the eviction expression is dead, since the positive overflow
always wins the max whenever trimming runs. -/
theorem hash_eviction_single_oldest :
    ∀ (hs : List String) (h : String) (s : TagState),
      s.store.seenHashes = some hs →
      h ≠ "" →
      jsIndexOf h hs = -1 →
      hs.length = MAX_HASH_SIZE →
      (checkAndAddHash h s).2.state.store.seenHashes = some (hs.drop 1 ++ [h]) ∧
        (hs.drop 1 ++ [h]).length = MAX_HASH_SIZE ∧
        (checkAndAddHash h s).1 = false := by
  intro hs h s hst hne hidx hlen
  obtain ⟨a, t, rfl⟩ : ∃ a t, hs = a :: t := by
    cases hs with
    | nil => exact absurd hlen (by decide)
    | cons a t => exact ⟨a, t, rfl⟩
  have hlt : t.length = 99 := by
    have h100 : (a :: t).length = 100 := hlen
    simpa using h100
  simp only [checkAndAddHash, hne, if_false, hst, Option.getD_some, hidx, ne_eq, not_true_eq_false,
    reduceIte, ite_false, ite_true]
  norm_num [jsSliceFrom, hlt, MAX_HASH_SIZE]

/-- Witness for hash_eviction_single_oldest at the concrete full set of
100 numeric tokens and the fresh token x. -/
theorem hash_eviction_single_oldest_witness :
    (checkAndAddHash "x" stateHashes).2.state.store.seenHashes = some (hs100.drop 1 ++ ["x"]) ∧
      (hs100.drop 1 ++ ["x"]).length = MAX_HASH_SIZE ∧
      (checkAndAddHash "x" stateHashes).1 = false :=
  hash_eviction_single_oldest hs100 "x" stateHashes (by rfl) (by decide) (by decide) (by decide)

/-- Lookup after a JS property assignment finds the assigned value. -/
theorem jsObjSet_lookup (m : List (String × String)) (k v : String) :
    (jsObjSet m k v).lookup k = some v := by
  induction m with
  | nil => simp [jsObjSet, List.lookup]
  | cons kv rest ih =>
      obtain ⟨k0, v0⟩ := kv
      by_cases h : k0 = k
      · simp [jsObjSet, h, List.lookup]
      · have hb : (k == k0) = false := beq_eq_false_iff_ne.mpr (Ne.symm h)
        simp [jsObjSet, h, List.lookup, hb, ih]

/-- Characterization of sendBatchJs on a non-empty snapshot: the store
is reconciled, the shared custom-tags cell gains the container version,
and exactly one payload carrying the snapshot is sent. -/
theorem sendBatchJs_nonempty (opts : Options) (ci : Option ContainerInfo) (sid : String)
    (out : SendOutcome) (q : List RawTrack) (s : TagState) (hq : q ≠ []) :
    sendBatchJs opts ci sid out (some q) s =
      { state :=
          { store := (reconcileQueue q.length s.store).1
            customTags :=
              match ci with
              | some c => jsObjSet s.customTags "gtm_container_version" c.version
              | none => s.customTags }
        events := (reconcileQueue q.length s.store).2
        sends :=
          [{ requests := q
             ssgtm_container_version := ci
             tp_id := opts.TP_ID
             source_alias := "SSGTM"
             environment := opts.ENVIRONMENT
             sdk := "ssgtm"
             sdk_version := VERSION
             sampling_rate := opts.SAMPLING_RATE
             tags :=
               match ci with
               | some c => jsObjSet s.customTags "gtm_container_version" c.version
               | none => s.customTags
             session_id := if opts.USE_SESSIONS then some sid else none }] } := by
  have hemp : q.isEmpty = false := by
    cases q with
    | nil => exact absurd rfl hq
    | cons a l => rfl
  simp [sendBatchJs, hemp]

/-- Custom-tags cell after addToQueue with container info: either
untouched (no drain, or record sampled out) or extended by the drain's
sendBatch with the container version. -/
theorem addToQueue_customTags_some (opts : Options) (c : ContainerInfo) (sid : String)
    (t : RawTrack) (d : Nat) (n1 n2 : Int) (s : TagState) :
    (addToQueue opts (some c) sid t d n1 n2 s).state.customTags = s.customTags ∨
      (addToQueue opts (some c) sid t d n1 n2 s).state.customTags =
        jsObjSet s.customTags "gtm_container_version" c.version := by
  unfold addToQueue
  split
  · exact Or.inl rfl
  · dsimp only
    split
    · split
      · rw [sendBatchJs_nonempty _ _ _ _ _ _ (by simp)]
        exact Or.inr rfl
      · exact Or.inl rfl
    · split
      · rw [sendBatchJs_nonempty _ _ _ _ _ _ (by simp)]
        exact Or.inr rfl
      · exact Or.inl rfl

/-- C10: sending a non-empty batch with container info available mutates
the shared custom-tags cell in place, adding the gtm_container_version
key; the payload's common tags are exactly the mutated shared cell (the
same object every record of the invocation references), and the key
survives subsequent appends, so all records built after the first send
carry it. -/
theorem send_batch_mutates_custom_tags :
    ∀ (opts : Options) (c : ContainerInfo) (sid : String) (out : SendOutcome)
      (q : List RawTrack) (s : TagState), q ≠ [] →
      (sendBatchJs opts (some c) sid out (some q) s).state.customTags =
          jsObjSet s.customTags "gtm_container_version" c.version ∧
        (∃ p, (sendBatchJs opts (some c) sid out (some q) s).sends = [p] ∧
            p.tags = (sendBatchJs opts (some c) sid out (some q) s).state.customTags ∧
            p.requests = q) ∧
        ((sendBatchJs opts (some c) sid out (some q) s).state.customTags).lookup
            "gtm_container_version" = some c.version ∧
        (∀ (t : RawTrack) (d : Nat) (n1 n2 : Int),
            ((addToQueue opts (some c) sid t d n1 n2
                (sendBatchJs opts (some c) sid out (some q) s).state).state.customTags).lookup
              "gtm_container_version" = some c.version) := by
  intro opts c sid out q s hq
  rw [sendBatchJs_nonempty _ _ _ _ _ _ hq]
  refine ⟨rfl, ⟨_, rfl, rfl, rfl⟩, jsObjSet_lookup _ _ _, ?_⟩
  intro t d n1 n2
  rcases addToQueue_customTags_some opts c sid t d n1 n2 _ with h | h
  · rw [h]
    exact jsObjSet_lookup _ _ _
  · rw [h]
    exact jsObjSet_lookup _ _ _

/-- Witness for send_batch_mutates_custom_tags at a concrete one-record
queue and container version 7. -/
theorem send_batch_mutates_custom_tags_witness :
    (sendBatchJs opts1 (some { version := "7" }) "" SendOutcome.failure (some [t1])
          storeOne).state.customTags =
        jsObjSet storeOne.customTags "gtm_container_version" "7" ∧
      ((sendBatchJs opts1 (some { version := "7" }) "" SendOutcome.failure (some [t1])
          storeOne).state.customTags).lookup "gtm_container_version" = some "7" := by
  have h := send_batch_mutates_custom_tags opts1 { version := "7" } "" SendOutcome.failure [t1]
    storeOne (by decide)
  exact ⟨h.1, h.2.2.1⟩

/-- Record t is actually appended to the persisted queue during
addToQueue exactly when the sampling gate does not reject it: an
admitted call writes the extended queue (a setQueue event whose value
ends in t), a rejected call performs no store access at all. -/
theorem addToQueue_append_write_iff (opts : Options) (ci : Option ContainerInfo) (sid : String)
    (t : RawTrack) (d : Nat) (n1 n2 : Int) (s : TagState) :
    (∃ q0, StoreEv.setQueue (q0 ++ [t]) ∈ (addToQueue opts ci sid t d n1 n2 s).events) ↔
      ¬(opts.SAMPLING_RATE > 1 ∧ d > 1) := by
  constructor
  · intro hex hcond
    obtain ⟨q0, hq0⟩ := hex
    unfold addToQueue at hq0
    rw [if_pos hcond] at hq0
    simp at hq0
  · intro hadm
    refine ⟨s.store.rawTrackQueue.getD [], ?_⟩
    unfold addToQueue
    rw [if_neg hadm]
    dsimp only
    split <;> split <;> simp

/-- C6: an admitted append that makes the queue length reach
maxBatchSize hands a snapshot of the whole appended queue to sendBatch
in the same call, and so does an admitted append made once
maxBatchAgeMs has elapsed since the queue start time, regardless of the
size threshold. -/
theorem flush_trigger_conditions :
    ∀ (opts : Options) (ci : Option ContainerInfo) (sid : String) (t : RawTrack) (d : Nat)
      (n1 n2 : Int) (s : TagState),
      ¬(opts.SAMPLING_RATE > 1 ∧ d > 1) →
      ((s.store.rawTrackQueue.getD [] ++ [t]).length ≥ opts.MAX_BATCH_SIZE →
        ∃ p, (addToQueue opts ci sid t d n1 n2 s).sends = [p] ∧
          p.requests = s.store.rawTrackQueue.getD [] ++ [t]) ∧
      (n2 - (if (s.store.rawTrackQueue.getD []).isEmpty then n1
             else s.store.queueStartTime.getD 0) ≥ opts.MAX_BATCH_AGE_MS →
        ∃ p, (addToQueue opts ci sid t d n1 n2 s).sends = [p] ∧
          p.requests = s.store.rawTrackQueue.getD [] ++ [t]) := by
  intro opts ci sid t d n1 n2 s hadm
  constructor
  · intro hsize
    unfold addToQueue
    rw [if_neg hadm]
    dsimp only
    have hc : ((s.store.rawTrackQueue.getD [] ++ [t]).length ≥ opts.MAX_BATCH_SIZE ∨
        (n2 - if (s.store.rawTrackQueue.getD []).isEmpty then n1
              else s.store.queueStartTime.getD 0) ≥ opts.MAX_BATCH_AGE_MS ∧
          (s.store.rawTrackQueue.getD [] ++ [t]).length > 0) ∧
        (s.store.rawTrackQueue.getD [] ++ [t]).length > 0 := ⟨Or.inl hsize, by simp⟩
    rw [if_pos hc, sendBatchJs_nonempty _ _ _ _ _ _ (by simp)]
    exact ⟨_, rfl, rfl⟩
  · intro hage
    unfold addToQueue
    rw [if_neg hadm]
    dsimp only
    have hc : ((s.store.rawTrackQueue.getD [] ++ [t]).length ≥ opts.MAX_BATCH_SIZE ∨
        (n2 - if (s.store.rawTrackQueue.getD []).isEmpty then n1
              else s.store.queueStartTime.getD 0) ≥ opts.MAX_BATCH_AGE_MS ∧
          (s.store.rawTrackQueue.getD [] ++ [t]).length > 0) ∧
        (s.store.rawTrackQueue.getD [] ++ [t]).length > 0 :=
      ⟨Or.inr ⟨hage, by simp⟩, by simp⟩
    rw [if_pos hc, sendBatchJs_nonempty _ _ _ _ _ _ (by simp)]
    exact ⟨_, rfl, rfl⟩

/-- Witness for flush_trigger_conditions: with maxBatchSize 1 a single
admitted append drains immediately, and with the default size 20 an
append whose elapsed time 8990 exceeds maxBatchAgeMs 5000 drains a
one-record batch. -/
theorem flush_trigger_conditions_witness :
    (∃ p, (addToQueue { opts1 with MAX_BATCH_SIZE := 1 } none "" t1 1 10 11
        (initState [])).sends = [p] ∧
      p.requests = (initState []).store.rawTrackQueue.getD [] ++ [t1]) ∧
    (∃ p, (addToQueue opts1 none "" t1 1 10 9000 (initState [])).sends = [p] ∧
      p.requests = (initState []).store.rawTrackQueue.getD [] ++ [t1]) :=
  ⟨(flush_trigger_conditions { opts1 with MAX_BATCH_SIZE := 1 } none "" t1 1 10 11 (initState [])
      (by decide)).1 (by decide),
    (flush_trigger_conditions opts1 none "" t1 1 10 9000 (initState []) (by decide)).2 (by decide)⟩

/-- C7: the sampler admits every record when samplingRate is at most 1;
when samplingRate exceeds 1 and the fresh draw lies in the range 1 to
samplingRate delivered by generateRandom, the record is admitted (ends
up appended to the queue) exactly when the draw equals 1; and the
decision for a second record depends only on that record's own fresh
draw, never on a cached earlier draw. -/
theorem sampling_admission :
    ∀ (opts : Options) (ci : Option ContainerInfo) (sid : String) (t : RawTrack) (d : Nat)
      (n1 n2 : Int) (s : TagState),
      (opts.SAMPLING_RATE ≤ 1 →
        ∃ q0, StoreEv.setQueue (q0 ++ [t]) ∈ (addToQueue opts ci sid t d n1 n2 s).events) ∧
      (opts.SAMPLING_RATE > 1 → 1 ≤ d → d ≤ opts.SAMPLING_RATE →
        ((∃ q0, StoreEv.setQueue (q0 ++ [t]) ∈ (addToQueue opts ci sid t d n1 n2 s).events) ↔
          d = 1)) ∧
      (∀ (t2 : RawTrack) (d2 : Nat) (m1 m2 : Int),
        opts.SAMPLING_RATE > 1 → 1 ≤ d2 → d2 ≤ opts.SAMPLING_RATE →
        ((∃ q0, StoreEv.setQueue (q0 ++ [t2]) ∈
            (addToQueue opts ci sid t2 d2 m1 m2
              (addToQueue opts ci sid t d n1 n2 s).state).events) ↔ d2 = 1)) := by
  intro opts ci sid t d n1 n2 s
  refine ⟨?_, ?_, ?_⟩
  · intro hr
    exact (addToQueue_append_write_iff opts ci sid t d n1 n2 s).mpr (by omega)
  · intro hr hd1 hdr
    rw [addToQueue_append_write_iff]
    omega
  · intro t2 d2 m1 m2 hr hd1 hdr
    rw [addToQueue_append_write_iff]
    omega

/-- Witness for sampling_admission at sampling rate 3: draw 1 appends
the record, draw 2 does not. -/
theorem sampling_admission_witness :
    (∃ q0, StoreEv.setQueue (q0 ++ [t1]) ∈
      (addToQueue { opts1 with SAMPLING_RATE := 3 } none "" t1 1 10 11 (initState [])).events) ∧
    ¬(∃ q0, StoreEv.setQueue (q0 ++ [t1]) ∈
      (addToQueue { opts1 with SAMPLING_RATE := 3 } none "" t1 2 10 11 (initState [])).events) := by
  constructor
  · exact ((sampling_admission { opts1 with SAMPLING_RATE := 3 } none "" t1 1 10 11
      (initState [])).2.1 (by decide) (by decide) (by decide)).mpr rfl
  · intro hex
    have h2 := ((sampling_admission { opts1 with SAMPLING_RATE := 3 } none "" t1 2 10 11
      (initState [])).2.1 (by decide) (by decide) (by decide)).mp hex
    exact absurd h2 (by decide)

/-- C3 counterexample: in both template revisions initialize processes
the invocation's own GTM event BEFORE running the stale-queue check
(processGTM is statement 0 and checkStale statement 2), and the concrete
event trace of an invocation with captureGTM enabled shows the queue
append (setQueue) happening before the stale check's store reads — so
the stale check does not run before any event of the invocation is
processed. -/
theorem stale_check_order_counterexample :
    initializeStepsJs true =
        [InitStep.processGTM, InitStep.setupListener, InitStep.checkStale, InitStep.gtmOnSuccess] ∧
      initializeStepsTpl =
        [InitStep.processGTM, InitStep.setupListener, InitStep.checkStale, InitStep.gtmOnSuccess] ∧
      (initializeStepsJs true).indexOf InitStep.processGTM = 0 ∧
      (initializeStepsJs true).indexOf InitStep.checkStale = 2 ∧
      (initializeJs opts1 none "" none t1 1 10 11 12 (initState [])).events =
        [StoreEv.get StoreKey.rawTrackQueue, StoreEv.get StoreKey.queueStartTime,
          StoreEv.setStart 10, StoreEv.setQueue [t1],
          StoreEv.get StoreKey.rawTrackQueue, StoreEv.get StoreKey.queueStartTime] := by
  decide

/-- C3 amended: the stale-queue check runs exactly once per invocation,
after the invocation's own GTM event processing (when capture is
enabled) and before relayed-message events are handled; on a non-empty
queue with a nonzero start time whose age reached maxBatchAgeMs it
drains a snapshot of the whole queue, and in every other case it
changes nothing and sends nothing. -/
theorem stale_check_once_after_gtm :
    (∀ c : Bool,
        (initializeStepsJs c).count InitStep.checkStale = 1 ∧
        initializeStepsJs c =
          (if c then [InitStep.processGTM] else [])
            ++ [InitStep.setupListener, InitStep.checkStale, InitStep.gtmOnSuccess]) ∧
    (∀ (opts : Options) (ci : Option ContainerInfo) (sid : String) (now : Int) (s : TagState),
        s.store.rawTrackQueue.getD [] ≠ [] →
        s.store.queueStartTime.getD 0 ≠ 0 →
        now - s.store.queueStartTime.getD 0 ≥ opts.MAX_BATCH_AGE_MS →
        ∃ p, (checkStaleQueue opts ci sid now s).sends = [p] ∧
          p.requests = s.store.rawTrackQueue.getD []) ∧
    (∀ (opts : Options) (ci : Option ContainerInfo) (sid : String) (now : Int) (s : TagState),
        (s.store.rawTrackQueue.getD [] = [] ∨ s.store.queueStartTime.getD 0 = 0 ∨
          now - s.store.queueStartTime.getD 0 < opts.MAX_BATCH_AGE_MS) →
        (checkStaleQueue opts ci sid now s).sends = [] ∧
          (checkStaleQueue opts ci sid now s).state = s) := by
  refine ⟨?_, ?_, ?_⟩
  · intro c
    cases c
    · exact ⟨by decide, rfl⟩
    · exact ⟨by decide, rfl⟩
  · intro opts ci sid now s hqne hst0 hage
    unfold checkStaleQueue
    dsimp only
    have h1 : ¬((s.store.rawTrackQueue.getD []).isEmpty = true ∨
        s.store.queueStartTime.getD 0 = 0) := by
      rintro (h | h)
      · exact hqne (List.isEmpty_iff.mp h)
      · exact hst0 h
    rw [if_neg h1, if_pos hage, sendBatchJs_nonempty _ _ _ _ _ _ hqne]
    exact ⟨_, rfl, rfl⟩
  · intro opts ci sid now s hcase
    unfold checkStaleQueue
    dsimp only
    by_cases h1 : (s.store.rawTrackQueue.getD []).isEmpty = true ∨
        s.store.queueStartTime.getD 0 = 0
    · rw [if_pos h1]
      exact ⟨rfl, rfl⟩
    · rw [if_neg h1]
      have hlt : now - s.store.queueStartTime.getD 0 < opts.MAX_BATCH_AGE_MS := by
        rcases hcase with h | h | h
        · exact absurd (Or.inl (by simp [h])) h1
        · exact absurd (Or.inr h) h1
        · exact h
      rw [if_neg (not_le.mpr hlt)]
      exact ⟨rfl, rfl⟩

/-- Witness for stale_check_once_after_gtm: the check appears once in
the trace, a 5995 ms old one-record queue is drained under the 5000 ms
limit, and a 95 ms old one is left untouched. -/
theorem stale_check_once_after_gtm_witness :
    ((initializeStepsJs false).count InitStep.checkStale = 1) ∧
    (∃ p, (checkStaleQueue opts1 none "" 6000 storeOne).sends = [p] ∧
        p.requests = storeOne.store.rawTrackQueue.getD []) ∧
    ((checkStaleQueue opts1 none "" 100 storeOne).sends = [] ∧
      (checkStaleQueue opts1 none "" 100 storeOne).state = storeOne) :=
  ⟨(stale_check_once_after_gtm.1 false).1,
    stale_check_once_after_gtm.2.1 opts1 none "" 6000 storeOne (by decide) (by decide) (by decide),
    stale_check_once_after_gtm.2.2 opts1 none "" 100 storeOne (Or.inr (Or.inr (by decide)))⟩

/-- Reconciling with a sent length equal to the current persisted queue
length clears the queue and resets the start time (the drain paths of
this code always reconcile against the very snapshot they just wrote or
read, so this is the reachable sequential case). -/
theorem reconcileQueue_some_self (q : List RawTrack) (st : Store) (h : st.rawTrackQueue = some q) :
    reconcileQueue q.length st =
      ({ st with rawTrackQueue := some [], queueStartTime := some 0 },
        [StoreEv.get StoreKey.rawTrackQueue, StoreEv.setQueue [], StoreEv.setStart 0]) := by
  unfold reconcileQueue
  rw [h]
  simp

/-- Appending preserves the start-time/queue-emptiness invariant, given
a positive timestamp. -/
theorem addToQueue_preserves_qinv (opts : Options) (ci : Option ContainerInfo) (sid : String)
    (t : RawTrack) (d : Nat) (n1 n2 : Int) (s : TagState) (hn1 : 0 < n1) (hinv : qinv s) :
    qinv (addToQueue opts ci sid t d n1 n2 s).state := by
  unfold addToQueue
  split
  · exact hinv
  · dsimp only
    split
    · split
      · rw [sendBatchJs_nonempty _ _ _ _ _ _ (by simp)]
        rw [reconcileQueue_some_self _ _ rfl]
        simp [qinv]
      · rename_i hemp _
        simp [qinv, List.isEmpty_iff.mp hemp]
        omega
    · split
      · rw [sendBatchJs_nonempty _ _ _ _ _ _ (by simp)]
        rw [reconcileQueue_some_self _ _ rfl]
        simp [qinv]
      · rename_i hemp _
        have hq : s.store.rawTrackQueue.getD [] ≠ [] := by
          intro hc
          rw [hc] at hemp
          exact hemp rfl
        have hst : s.store.queueStartTime.getD 0 ≠ 0 := by
          intro hc
          exact hq (hinv.mp hc)
        simp [qinv, hst]

/-- Stale-queue checking preserves the start-time/queue-emptiness
invariant. -/
theorem checkStaleQueue_preserves_qinv (opts : Options) (ci : Option ContainerInfo)
    (sid : String) (now : Int) (s : TagState) (hinv : qinv s) :
    qinv (checkStaleQueue opts ci sid now s).state := by
  unfold checkStaleQueue
  dsimp only
  split
  · exact hinv
  · split
    · rename_i h1 _
      have hq : s.store.rawTrackQueue.getD [] ≠ [] := by
        intro hc
        exact h1 (Or.inl (by simp [hc]))
      obtain ⟨q0, hq0⟩ : ∃ q0, s.store.rawTrackQueue = some q0 := by
        cases hopt : s.store.rawTrackQueue with
        | none => exact absurd (by simp [hopt]) hq
        | some q0 => exact ⟨q0, rfl⟩
      rw [sendBatchJs_nonempty _ _ _ _ _ _ hq]
      have hlen : (s.store.rawTrackQueue.getD []).length = q0.length := by rw [hq0]; rfl
      rw [hlen, reconcileQueue_some_self _ _ hq0]
      simp [qinv]
    · exact hinv

/-- Every history operation preserves the invariant. -/
theorem applyOp_preserves_qinv (opts : Options) (ci : Option ContainerInfo) (sid : String)
    (op : QOp) (s : TagState) (hpos : op.posTime) (hinv : qinv s) :
    qinv (applyOp opts ci sid op s).state := by
  cases op with
  | append t d n1 n2 => exact addToQueue_preserves_qinv opts ci sid t d n1 n2 s hpos hinv
  | stale n => exact checkStaleQueue_preserves_qinv opts ci sid n s hinv

/-- The invariant is inductive along any history. -/
theorem runOps_preserves_qinv (opts : Options) (ci : Option ContainerInfo) (sid : String)
    (ops : List QOp) (s : TagState) (hpos : ∀ op ∈ ops, op.posTime) (hinv : qinv s) :
    qinv (runOps opts ci sid ops s) := by
  induction ops generalizing s with
  | nil => exact hinv
  | cons op ops ih =>
      exact ih (applyOp opts ci sid op s).state
        (fun o ho => hpos o (List.mem_cons_of_mem _ ho))
        (applyOp_preserves_qinv opts ci sid op s (hpos op (List.mem_cons_self _ _)) hinv)

/-- An admitted append to an empty queue writes exactly one nonzero
start time, the timestamp of that append. -/
theorem addToQueue_first_append_start (opts : Options) (ci : Option ContainerInfo) (sid : String)
    (t : RawTrack) (d : Nat) (n1 n2 : Int) (s : TagState)
    (hemp : s.store.rawTrackQueue.getD [] = []) (hn1 : 0 < n1)
    (hadm : ¬(opts.SAMPLING_RATE > 1 ∧ d > 1)) :
    (startWrites (addToQueue opts ci sid t d n1 n2 s).events).filter (fun x => x != 0) = [n1] := by
  have hne : n1 ≠ 0 := by omega
  unfold addToQueue
  rw [if_neg hadm]
  simp only [hemp, List.isEmpty_nil, if_true, ite_true]
  split
  · rw [sendBatchJs_nonempty _ _ _ _ _ _ (by simp), reconcileQueue_some_self _ _ rfl]
    simp [startWrites, hne]
  · simp [startWrites, hne]

/-- An append to a non-empty queue never writes a nonzero start time. -/
theorem addToQueue_nonempty_no_start (opts : Options) (ci : Option ContainerInfo) (sid : String)
    (t : RawTrack) (d : Nat) (n1 n2 : Int) (s : TagState)
    (hq : s.store.rawTrackQueue.getD [] ≠ []) :
    (startWrites (addToQueue opts ci sid t d n1 n2 s).events).filter (fun x => x != 0) = [] := by
  unfold addToQueue
  split
  · simp [startWrites]
  · dsimp only
    have hemp : (s.store.rawTrackQueue.getD []).isEmpty = false := by
      cases hc : s.store.rawTrackQueue.getD [] with
      | nil => exact absurd hc hq
      | cons a l => rfl
    simp only [hemp, Bool.false_eq_true, if_false, ite_false]
    split
    · rw [sendBatchJs_nonempty _ _ _ _ _ _ (by simp), reconcileQueue_some_self _ _ rfl]
      simp [startWrites]
    · simp [startWrites]

/-- A start-time reset to 0 is written in a step exactly when that step
also writes an empty queue, and such a step leaves the persisted queue
empty: the start time is cleared exactly when the queue is emptied. -/
theorem clear_pairing (opts : Options) (ci : Option ContainerInfo) (sid : String)
    (op : QOp) (s : TagState) (hpos : op.posTime) :
    (StoreEv.setStart 0 ∈ (applyOp opts ci sid op s).events ↔
        StoreEv.setQueue [] ∈ (applyOp opts ci sid op s).events) ∧
      (StoreEv.setStart 0 ∈ (applyOp opts ci sid op s).events →
        (applyOp opts ci sid op s).state.store.rawTrackQueue = some []) := by
  cases op with
  | append t d n1 n2 =>
      have hne : n1 ≠ 0 := by
        have : (0 : Int) < n1 := hpos
        omega
      have hne0 : (0 : Int) ≠ n1 := Ne.symm hne
      dsimp only [applyOp]
      unfold addToQueue
      split
      · simp
      · dsimp only
        split
        · split
          · rw [sendBatchJs_nonempty _ _ _ _ _ _ (by simp), reconcileQueue_some_self _ _ rfl]
            simp
          · simp [hne, hne0]
        · split
          · rw [sendBatchJs_nonempty _ _ _ _ _ _ (by simp), reconcileQueue_some_self _ _ rfl]
            simp
          · simp [hne, hne0]
  | stale n =>
      dsimp only [applyOp]
      unfold checkStaleQueue
      dsimp only
      split
      · simp
      · split
        · rename_i h1 _
          have hq : s.store.rawTrackQueue.getD [] ≠ [] := fun hc => h1 (Or.inl (by simp [hc]))
          obtain ⟨q0, hq0⟩ : ∃ q0, s.store.rawTrackQueue = some q0 := by
            cases hopt : s.store.rawTrackQueue with
            | none => exact absurd (by simp [hopt]) hq
            | some q0 => exact ⟨q0, rfl⟩
          rw [sendBatchJs_nonempty _ _ _ _ _ _ hq]
          have hlen : (s.store.rawTrackQueue.getD []).length = q0.length := by rw [hq0]; rfl
          rw [hlen, reconcileQueue_some_self _ _ hq0]
          simp
        · simp

/-- C5: along every sequential append/drain history from the empty
state with positive timestamps the persisted pair satisfies
QueueStartTime = 0 iff the queue is empty; an admitted append to an
empty queue writes exactly one nonzero start time, equal to that
append's timestamp, while appends to a non-empty queue write none; and
a reset of the start time to 0 happens in a step exactly when that step
empties the queue. -/
theorem queue_start_time_invariant :
    (∀ (opts : Options) (ci : Option ContainerInfo) (sid : String)
        (tags0 : List (String × String)) (ops : List QOp),
        (∀ op ∈ ops, op.posTime) → qinv (runOps opts ci sid ops (initState tags0))) ∧
    (∀ (opts : Options) (ci : Option ContainerInfo) (sid : String) (t : RawTrack) (d : Nat)
        (n1 n2 : Int) (s : TagState),
        s.store.rawTrackQueue.getD [] = [] → 0 < n1 →
        ¬(opts.SAMPLING_RATE > 1 ∧ d > 1) →
        (startWrites (addToQueue opts ci sid t d n1 n2 s).events).filter
          (fun x => x != 0) = [n1]) ∧
    (∀ (opts : Options) (ci : Option ContainerInfo) (sid : String) (t : RawTrack) (d : Nat)
        (n1 n2 : Int) (s : TagState),
        s.store.rawTrackQueue.getD [] ≠ [] →
        (startWrites (addToQueue opts ci sid t d n1 n2 s).events).filter
          (fun x => x != 0) = []) ∧
    (∀ (opts : Options) (ci : Option ContainerInfo) (sid : String) (op : QOp) (s : TagState),
        op.posTime →
        ((StoreEv.setStart 0 ∈ (applyOp opts ci sid op s).events ↔
            StoreEv.setQueue [] ∈ (applyOp opts ci sid op s).events) ∧
          (StoreEv.setStart 0 ∈ (applyOp opts ci sid op s).events →
            (applyOp opts ci sid op s).state.store.rawTrackQueue = some []))) := by
  refine ⟨?_, ?_, ?_, ?_⟩
  · intro opts ci sid tags0 ops hpos
    exact runOps_preserves_qinv opts ci sid ops (initState tags0) hpos
      (by simp [qinv, initState])
  · intro opts ci sid t d n1 n2 s hemp hn1 hadm
    exact addToQueue_first_append_start opts ci sid t d n1 n2 s hemp hn1 hadm
  · intro opts ci sid t d n1 n2 s hq
    exact addToQueue_nonempty_no_start opts ci sid t d n1 n2 s hq
  · intro opts ci sid op s hpos
    exact clear_pairing opts ci sid op s hpos

/-- Witness for queue_start_time_invariant on a concrete two-operation
history and concrete single appends. -/
theorem queue_start_time_invariant_witness :
    qinv (runOps opts1 none "" [QOp.append t1 1 10 11, QOp.stale 12] (initState [])) ∧
      (startWrites (addToQueue opts1 none "" t1 1 10 11 (initState [])).events).filter
          (fun x => x != 0) = [10] ∧
      (startWrites (addToQueue opts1 none "" t2 1 20 21 storeOne).events).filter
          (fun x => x != 0) = [] ∧
      (StoreEv.setStart 0 ∈ (applyOp opts1 none "" (QOp.stale 6000) storeOne).events ↔
        StoreEv.setQueue [] ∈ (applyOp opts1 none "" (QOp.stale 6000) storeOne).events) := by
  refine ⟨queue_start_time_invariant.1 opts1 none "" [] _ ?_,
      queue_start_time_invariant.2.1 opts1 none "" t1 1 10 11 (initState [])
        (by decide) (by decide) (by decide),
      queue_start_time_invariant.2.2.1 opts1 none "" t2 1 20 21 storeOne (by decide),
      (queue_start_time_invariant.2.2.2 opts1 none "" (QOp.stale 6000) storeOne trivial).1⟩
  intro op hop
  fin_cases hop
  · show (0 : Int) < 10
    decide
  · trivial

end Trackingplan
